import Mathlib

/-!
Shallow embedding of `src/XR_APILAYER_NOVENDOR_toolkit/d3d12.cpp` (the D3D12
backend variant of the OpenXR-Toolkit graphics abstraction layer), together
with theorems settling the specification claims about it.

Conventions of the embedding:
* `std::shared_ptr<T>` fields that may be null are modelled as `Option T`
  (`none` = null pointer).
* `void*` results are modelled by `NativePtr` (`null` or an address).
* C++ exceptions are modelled by `Except Err`.
* `std::vector<T>` is modelled by `List T`; `operator[]` carries no bounds
  check in C++, so an out-of-range access (undefined behavior in the source)
  is modelled by the `none` outcome of `List.get?`.
* Member functions that mutate state are modelled by explicit state passing:
  they return the updated object alongside their result.
-/

namespace OpenXRToolkit

/-- Modelled from the spec: the closed backend enumeration `Api` declared in
`interfaces.h`, which is not among the sources here. The spec (sections 1 and
4.1) lists Direct3D 11 and Direct3D 12 as the supported backends, one
enumeration value per backend; the source file references `Api::D3D12`. -/
inductive Api where
  | D3D11
  | D3D12
deriving DecidableEq, Repr

/-- Modelled from the spec: the abstract pixel-format enumeration
`TextureFormat` declared in `interfaces.h`, which is not among the sources
here. The spec (section 6) describes it as a fixed closed set: 32-bit float
RGBA, 16-bit unorm RGBA, plus backend-specific sRGB 8-bit variants. -/
inductive TextureFormat where
  | R32G32B32A32_FLOAT
  | R16G16B16A16_UNORM
  | R8G8B8A8_UNORM_SRGB
deriving DecidableEq, Repr

/-- A raw native pointer (`void*`): null or an address. -/
inductive NativePtr where
  | null
  | addr (a : Nat)
deriving DecidableEq, Repr

/-- The exceptions thrown by the source file. Each constructor corresponds to
one `throw` site and is named after the error-taxonomy entry of the spec
(section 7) covering that site. -/
inductive Err where
  /-- `throw new std::runtime_error("Unknown texture format")` in
  `D3D12Device::getTextureFormat`. -/
  | UnsupportedFormatError
  /-- `throw new std::runtime_error("Not a D3D12 device")` in
  `WrapD3D12Texture`. -/
  | DeviceMismatchError
deriving DecidableEq, Repr

/-- Values of the `DXGI_FORMAT` enumeration of the Windows SDK (external to
the repository) used by the source file. -/
def DXGI_FORMAT_R32G32B32A32_FLOAT : Int := 2

def DXGI_FORMAT_R16G16B16A16_UNORM : Int := 11

def DXGI_FORMAT_R8G8B8A8_UNORM_SRGB : Int := 29

def DXGI_FORMAT_B8G8R8A8_UNORM_SRGB : Int := 91

def DXGI_FORMAT_B8G8R8X8_UNORM_SRGB : Int := 93

/-- The caller-facing side of `IDevice` used by the embedding: its backend
identity (`getApi()`) and diagnostic name. `WrapD3D12Texture` receives an
arbitrary `IDevice` and inspects only `getApi()`. -/
structure IDevice where
  api : Api
  deviceName : String
deriving DecidableEq, Repr

/-- `XrSwapchainCreateInfo` (OpenXR SDK): the swapchain creation parameters
that the abstraction stores with a texture. Only the fields the source file
reads are modelled. -/
structure XrSwapchainCreateInfo where
  format : Int
  width : Nat
  height : Nat
  arraySize : Nat
  sampleCount : Nat
deriving DecidableEq, Repr

/-- `D3D12_RESOURCE_DESC`: the native resource descriptor reported by
`ID3D12Resource::GetDesc()`. -/
structure D3D12_RESOURCE_DESC where
  format : Int
  width : Nat
  height : Nat
  depthOrArraySize : Nat
deriving DecidableEq, Repr

/-- An `ID3D12Resource`: its own reported descriptor, its debug name
(settable via `SetName`), and its address (object identity). -/
structure ID3D12Resource where
  desc : D3D12_RESOURCE_DESC
  name : Option String
  ptr : Nat
deriving DecidableEq, Repr

/-- `ID3D12Resource::SetName`. -/
def ID3D12Resource.setName (r : ID3D12Resource) (n : String) : ID3D12Resource :=
  { r with name := some n }

/-- `D3D12_CPU_DESCRIPTOR_HANDLE`: an opaque descriptor-heap handle. -/
structure D3D12_CPU_DESCRIPTOR_HANDLE where
  ptr : Nat
deriving DecidableEq, Repr

/-- `D3D12ShaderResourceView` (implements `IShaderInputTextureView`): a device
back-reference plus the wrapped native descriptor handle. -/
structure D3D12ShaderResourceView where
  device : IDevice
  shaderResourceView : D3D12_CPU_DESCRIPTOR_HANDLE
deriving DecidableEq, Repr

/-- `D3D12ShaderResourceView::getApi`. -/
def D3D12ShaderResourceView.getApi (_v : D3D12ShaderResourceView) : Api :=
  Api.D3D12

/-- `D3D12ShaderResourceView::getNativePtr`: the source body is
`return nullptr;`. -/
def D3D12ShaderResourceView.getNativePtr (_v : D3D12ShaderResourceView) : NativePtr :=
  NativePtr.null

/-- `D3D12UnorderedAccessView` (implements `IComputeShaderOutputView`). -/
structure D3D12UnorderedAccessView where
  device : IDevice
  unorderedAccessView : D3D12_CPU_DESCRIPTOR_HANDLE
deriving DecidableEq, Repr

/-- `D3D12UnorderedAccessView::getApi`. -/
def D3D12UnorderedAccessView.getApi (_v : D3D12UnorderedAccessView) : Api :=
  Api.D3D12

/-- `D3D12UnorderedAccessView::getNativePtr`: the source body is
`return nullptr;`. -/
def D3D12UnorderedAccessView.getNativePtr (_v : D3D12UnorderedAccessView) : NativePtr :=
  NativePtr.null

/-- `D3D12RenderTargetView` (implements `IRenderTargetView`). -/
structure D3D12RenderTargetView where
  device : IDevice
  renderTargetView : D3D12_CPU_DESCRIPTOR_HANDLE
deriving DecidableEq, Repr

/-- `D3D12RenderTargetView::getApi`. -/
def D3D12RenderTargetView.getApi (_v : D3D12RenderTargetView) : Api :=
  Api.D3D12

/-- `D3D12RenderTargetView::getNativePtr`: the source body is
`return nullptr;`. -/
def D3D12RenderTargetView.getNativePtr (_v : D3D12RenderTargetView) : NativePtr :=
  NativePtr.null

/-- `D3D12Texture`: the wrapped native texture plus the per-slice view
caches. Each cache slot is a `shared_ptr` to a view, null until filled
(`Option`, `none` = null); the sub-view vectors are resized to
`info.arraySize` null entries by the constructor. -/
structure D3D12Texture where
  device : IDevice
  info : XrSwapchainCreateInfo
  textureDesc : D3D12_RESOURCE_DESC
  texture : ID3D12Resource
  shaderResourceView : Option D3D12ShaderResourceView
  shaderResourceSubView : List (Option D3D12ShaderResourceView)
  unorderedAccessView : Option D3D12UnorderedAccessView
  unorderedAccessSubView : List (Option D3D12UnorderedAccessView)
  renderTargetView : Option D3D12RenderTargetView
  renderTargetSubView : List (Option D3D12RenderTargetView)
deriving DecidableEq, Repr

/-- The `D3D12Texture` constructor: stores its arguments and resizes the
three per-slice caches to `info.arraySize` null slots. -/
def D3D12Texture.create (device : IDevice) (info : XrSwapchainCreateInfo)
    (textureDesc : D3D12_RESOURCE_DESC) (texture : ID3D12Resource) : D3D12Texture :=
  { device := device
    info := info
    textureDesc := textureDesc
    texture := texture
    shaderResourceView := none
    shaderResourceSubView := List.replicate info.arraySize none
    unorderedAccessView := none
    unorderedAccessSubView := List.replicate info.arraySize none
    renderTargetView := none
    renderTargetSubView := List.replicate info.arraySize none }

/-- `D3D12Texture::getApi`. -/
def D3D12Texture.getApi (_t : D3D12Texture) : Api :=
  Api.D3D12

/-- `D3D12Texture::getInfo`. -/
def D3D12Texture.getInfo (t : D3D12Texture) : XrSwapchainCreateInfo :=
  t.info

/-- `D3D12Texture::isArray`: the source body is `return false;`. -/
def D3D12Texture.isArray (_t : D3D12Texture) : Bool :=
  false

/-- `D3D12Texture::getNativePtr`: returns `m_texture.Get()`. -/
def D3D12Texture.getNativePtr (t : D3D12Texture) : NativePtr :=
  NativePtr.addr t.texture.ptr

/-- `D3D12Texture::getShaderInputViewInternal`: receives a cache slot by
reference; the creation branch `if (!shaderResourceView) { }` has an empty
body, so the slot is returned as found and never filled. Result: (returned
view, slot content after the call). -/
def getShaderInputViewInternal (shaderResourceView : Option D3D12ShaderResourceView)
    (_slice : Nat) : Option D3D12ShaderResourceView × Option D3D12ShaderResourceView :=
  (shaderResourceView, shaderResourceView)

/-- `D3D12Texture::getComputeShaderOutputViewInternal`: same shape, empty
creation branch. -/
def getComputeShaderOutputViewInternal (unorderedAccessView : Option D3D12UnorderedAccessView)
    (_slice : Nat) : Option D3D12UnorderedAccessView × Option D3D12UnorderedAccessView :=
  (unorderedAccessView, unorderedAccessView)

/-- `D3D12Texture::getRenderTargetViewInternal`: same shape, empty creation
branch. -/
def getRenderTargetViewInternal (renderTargetView : Option D3D12RenderTargetView)
    (_slice : Nat) : Option D3D12RenderTargetView × Option D3D12RenderTargetView :=
  (renderTargetView, renderTargetView)

/-- `D3D12Texture::getShaderInputView(uint32_t slice)`: reads
`m_shaderResourceSubView[slice]` with unchecked `operator[]`. An in-range
access yields `some (view, texture after the call)`; an out-of-range access
is undefined behavior in the source and is modelled as `none`. -/
def D3D12Texture.getShaderInputViewAt (t : D3D12Texture) (slice : Nat) :
    Option (Option D3D12ShaderResourceView × D3D12Texture) :=
  match t.shaderResourceSubView.get? slice with
  | none => none
  | some entry =>
    let r := getShaderInputViewInternal entry slice
    some (r.1, { t with shaderResourceSubView := t.shaderResourceSubView.set slice r.2 })

/-- `D3D12Texture::getComputeShaderOutputView(uint32_t slice)`: reads
`m_unorderedAccessSubView[slice]` with unchecked `operator[]`. -/
def D3D12Texture.getComputeShaderOutputViewAt (t : D3D12Texture) (slice : Nat) :
    Option (Option D3D12UnorderedAccessView × D3D12Texture) :=
  match t.unorderedAccessSubView.get? slice with
  | none => none
  | some entry =>
    let r := getComputeShaderOutputViewInternal entry slice
    some (r.1, { t with unorderedAccessSubView := t.unorderedAccessSubView.set slice r.2 })

/-- `D3D12Texture::getRenderTargetView(uint32_t slice)`: reads
`m_renderTargetSubView[slice]` with unchecked `operator[]`. -/
def D3D12Texture.getRenderTargetViewAt (t : D3D12Texture) (slice : Nat) :
    Option (Option D3D12RenderTargetView × D3D12Texture) :=
  match t.renderTargetSubView.get? slice with
  | none => none
  | some entry =>
    let r := getRenderTargetViewInternal entry slice
    some (r.1, { t with renderTargetSubView := t.renderTargetSubView.set slice r.2 })

/-- Number of render-target views actually present in the per-slice cache
(non-null slots). -/
def D3D12Texture.renderTargetCacheSize (t : D3D12Texture) : Nat :=
  (t.renderTargetSubView.filter Option.isSome).length

/-- `D3D12ComputeShader`: compiled program handle, device back-reference and
the stored 3-D thread-group extents (`std::array<unsigned int, 3>`). -/
structure D3D12ComputeShader where
  device : IDevice
  computeShader : NativePtr
  threadGroups : Nat × Nat × Nat
deriving DecidableEq, Repr

/-- `D3D12ComputeShader::getApi`. -/
def D3D12ComputeShader.getApi (_s : D3D12ComputeShader) : Api :=
  Api.D3D12

/-- `D3D12ComputeShader::getNativePtr`: returns `m_computeShader.Get()`. -/
def D3D12ComputeShader.getNativePtr (s : D3D12ComputeShader) : NativePtr :=
  s.computeShader

/-- `D3D12ComputeShader::updateThreadGroups`: `m_threadGroups = threadGroups;`. -/
def D3D12ComputeShader.updateThreadGroups (s : D3D12ComputeShader)
    (threadGroups : Nat × Nat × Nat) : D3D12ComputeShader :=
  { s with threadGroups := threadGroups }

/-- `D3D12ComputeShader::getThreadGroups`: the extents a dispatch consults. -/
def D3D12ComputeShader.getThreadGroups (s : D3D12ComputeShader) : Nat × Nat × Nat :=
  s.threadGroups

/-- `D3D12GpuTimer`: the source class holds only the device back-reference;
it records no interval state. -/
structure D3D12GpuTimer where
  device : IDevice
deriving DecidableEq, Repr

/-- `D3D12GpuTimer::start`: empty body, state unchanged. -/
def D3D12GpuTimer.start (t : D3D12GpuTimer) : D3D12GpuTimer :=
  t

/-- `D3D12GpuTimer::stop`: empty body, state unchanged. -/
def D3D12GpuTimer.stop (t : D3D12GpuTimer) : D3D12GpuTimer :=
  t

/-- `D3D12GpuTimer::query(bool reset)`: the source body is `return 0;`. -/
def D3D12GpuTimer.query (_t : D3D12GpuTimer) (_reset : Bool) : Nat :=
  0

/-- `D3D12Device`: native device/queue/context handles plus the diagnostic
adapter name recorded at construction. The class holds no shader-binding
state (no member records a bound quad or compute shader). -/
structure D3D12Device where
  device : NativePtr
  queue : NativePtr
  context : NativePtr
  deviceName : String
deriving DecidableEq, Repr

/-- `D3D12Device::getApi`. -/
def D3D12Device.getApi (_d : D3D12Device) : Api :=
  Api.D3D12

/-- `D3D12Device::getTextureFormat`: maps the two enumerated abstract formats
to their DXGI codes and throws (`"Unknown texture format"`) on every other
abstract format. -/
def D3D12Device.getTextureFormat (_d : D3D12Device) (format : TextureFormat) :
    Except Err Int :=
  match format with
  | TextureFormat.R32G32B32A32_FLOAT => Except.ok DXGI_FORMAT_R32G32B32A32_FLOAT
  | TextureFormat.R16G16B16A16_UNORM => Except.ok DXGI_FORMAT_R16G16B16A16_UNORM
  | _ => Except.error Err.UnsupportedFormatError

/-- `D3D12Device::isTextureFormatSRGB`: a switch returning `true` on the
three sRGB DXGI codes and `false` on every other code. -/
def D3D12Device.isTextureFormatSRGB (_d : D3D12Device) (format : Int) : Bool :=
  format = DXGI_FORMAT_R8G8B8A8_UNORM_SRGB ∨
    format = DXGI_FORMAT_B8G8R8A8_UNORM_SRGB ∨
    format = DXGI_FORMAT_B8G8R8X8_UNORM_SRGB

/-- `D3D12Device::setShader(std::shared_ptr<IComputeShader>)`: empty body,
device state unchanged. -/
def D3D12Device.setShaderCompute (d : D3D12Device) (_shader : D3D12ComputeShader) :
    D3D12Device :=
  d

/-- `D3D12Device::dispatchShader(bool doNotClear)`: the source body is empty.
It performs no work, inspects no binding state, and can throw nothing, so the
embedding always returns `Except.ok` with the device unchanged. -/
def D3D12Device.dispatchShader (d : D3D12Device) (_doNotClear : Bool) :
    Except Err D3D12Device :=
  Except.ok d

/-- The supported-format subset of this backend as the spec states it
(section on `getTextureFormat`): 32-bit float RGBA and 16-bit unorm RGBA. -/
def supportedFormats : List TextureFormat :=
  [TextureFormat.R32G32B32A32_FLOAT, TextureFormat.R16G16B16A16_UNORM]

/-- `toolkit::graphics::WrapD3D12Texture`: rejects a device whose `getApi()`
is not D3D12, otherwise optionally sets the debug name on the native
resource, queries the resource's own descriptor with `GetDesc()`, and builds
the `D3D12Texture` from that descriptor. -/
def WrapD3D12Texture (device : IDevice) (info : XrSwapchainCreateInfo)
    (texture : ID3D12Resource) (debugName : Option String) :
    Except Err D3D12Texture :=
  if device.api ≠ Api.D3D12 then
    Except.error Err.DeviceMismatchError
  else
    let texture :=
      match debugName with
      | some n => texture.setName n
      | none => texture
    let desc := texture.desc
    Except.ok (D3D12Texture.create device info desc texture)

/-- `toolkit::graphics::WrapD3D12Device`. -/
def WrapD3D12Device (device : NativePtr) (queue : NativePtr) (deviceName : String) :
    D3D12Device :=
  { device := device, queue := queue, context := NativePtr.null, deviceName := deviceName }

/- Concrete sample objects used to evaluate the embedding at specific
inputs. -/

/-- A sample D3D12 `IDevice` back-reference. -/
def sampleIDevice : IDevice :=
  { api := Api.D3D12, deviceName := "adapter" }

/-- A sample non-D3D12 `IDevice` (D3D11 backend). -/
def sampleD3D11Device : IDevice :=
  { api := Api.D3D11, deviceName := "adapter11" }

/-- A sample concrete `D3D12Device`. -/
def sampleDevice : D3D12Device :=
  WrapD3D12Device (NativePtr.addr 1) (NativePtr.addr 2) "adapter"

/-- Swapchain parameters of a non-array texture (`arraySize = 1`). -/
def sampleInfo1 : XrSwapchainCreateInfo :=
  { format := 11, width := 2448, height := 2448, arraySize := 1, sampleCount := 1 }

/-- Swapchain parameters of a stereo array texture (`arraySize = 2`). -/
def sampleInfo2 : XrSwapchainCreateInfo :=
  { format := 11, width := 2448, height := 2448, arraySize := 2, sampleCount := 1 }

/-- A sample native resource descriptor. -/
def sampleDesc : D3D12_RESOURCE_DESC :=
  { format := 11, width := 2448, height := 2448, depthOrArraySize := 2 }

/-- A sample native resource. -/
def sampleResource : ID3D12Resource :=
  { desc := sampleDesc, name := none, ptr := 42 }

/-- A non-array texture (`arraySize = 1`). -/
def sampleTexture1 : D3D12Texture :=
  D3D12Texture.create sampleIDevice sampleInfo1 sampleDesc sampleResource

/-- A stereo array texture (`arraySize = 2`). -/
def sampleTexture2 : D3D12Texture :=
  D3D12Texture.create sampleIDevice sampleInfo2 sampleDesc sampleResource

/-- C1: the claim says an out-of-range slice request fails with
`IndexOutOfRangeError`. On a texture with `arraySize = 1`, requesting slice 1
of any view kind reads the per-slice cache vector with unchecked
`operator[]`: the source raises no error at all, the access is undefined
behavior (the `none` outcome of the embedding), so the claim fails on the
code. -/
theorem C1_out_of_range_slice_is_unchecked :
    sampleTexture1.getInfo.arraySize = 1 ∧
    sampleTexture1.getShaderInputViewAt 1 = none ∧
    sampleTexture1.getComputeShaderOutputViewAt 1 = none ∧
    sampleTexture1.getRenderTargetViewAt 1 = none := by
  refine ⟨rfl, ?_, ?_, ?_⟩ <;> decide

/-- C2: the claim says `isArray()` is true exactly when `arraySize > 1`. On a
texture created with `arraySize = 2` the source's `isArray()` body
(`return false;`) still returns `false`, so the claim fails on the code. -/
theorem C2_isArray_false_on_array_texture :
    sampleTexture2.getInfo.arraySize = 2 ∧ sampleTexture2.isArray = false :=
  ⟨rfl, rfl⟩

/-- C3: the claim says each valid (kind, slice) request lazily creates and
memoizes a view, and that requesting render-target views for slices 0 and 1
of a 2-slice array texture creates two independent views. In the source the
creation branch `if (!view) { }` is empty: both requests return the null
shared pointer, the texture state is unchanged, and the render-target cache
stays empty (size 0, not 2), so the claim fails on the code. -/
theorem C3_no_views_created :
    sampleTexture2.getRenderTargetViewAt 0 = some (none, sampleTexture2) ∧
    sampleTexture2.getRenderTargetViewAt 1 = some (none, sampleTexture2) ∧
    sampleTexture2.renderTargetCacheSize = 0 ∧
    sampleTexture2.getShaderInputViewAt 0 = some (none, sampleTexture2) := by
  refine ⟨?_, ?_, ?_, ?_⟩ <;> decide

/-- C4: `WrapD3D12Texture` fails with `DeviceMismatchError` for every device
whose `getApi()` is not D3D12; when the API matches it succeeds, optionally
sets the debug name on the native resource, and derives the texture's
descriptor from the native resource's own reported layout (`GetDesc()`),
independent of the supplied swapchain info. -/
theorem C4_wrap_checks_api_and_uses_native_desc
    (device : IDevice) (info : XrSwapchainCreateInfo) (res : ID3D12Resource)
    (debugName : Option String) :
    (device.api ≠ Api.D3D12 →
      WrapD3D12Texture device info res debugName = Except.error Err.DeviceMismatchError) ∧
    (device.api = Api.D3D12 →
      ∃ t : D3D12Texture,
        WrapD3D12Texture device info res debugName = Except.ok t ∧
        t.textureDesc = res.desc ∧
        t.texture.desc = res.desc ∧
        t.texture.ptr = res.ptr ∧
        t.texture.name = (match debugName with | some n => some n | none => res.name) ∧
        t.info = info ∧
        t.device = device) := by
  constructor
  · intro h
    simp [WrapD3D12Texture, h]
  · intro h
    cases debugName with
    | none =>
      refine ⟨D3D12Texture.create device info res.desc res, ?_, rfl, rfl, rfl, rfl, rfl, rfl⟩
      simp [WrapD3D12Texture, h]
    | some n =>
      refine ⟨D3D12Texture.create device info (res.setName n).desc (res.setName n),
        ?_, ?_, ?_, ?_, ?_, rfl, rfl⟩
      · simp [WrapD3D12Texture, h]
      all_goals simp [ID3D12Resource.setName, D3D12Texture.create]

/-- Witness for C4: a D3D11 device is rejected with `DeviceMismatchError`;
a D3D12 device succeeds and the resulting texture's descriptor equals the
native resource's own descriptor. -/
theorem C4_wrap_checks_api_and_uses_native_desc_witness :
    WrapD3D12Texture sampleD3D11Device sampleInfo2 sampleResource none =
      Except.error Err.DeviceMismatchError ∧
    ∃ t : D3D12Texture,
      WrapD3D12Texture sampleIDevice sampleInfo2 sampleResource (some "eye") =
        Except.ok t ∧ t.textureDesc = sampleResource.desc := by
  constructor
  · exact (C4_wrap_checks_api_and_uses_native_desc sampleD3D11Device sampleInfo2
      sampleResource none).1 (by decide)
  · obtain ⟨t, h1, h2, _⟩ := (C4_wrap_checks_api_and_uses_native_desc sampleIDevice
      sampleInfo2 sampleResource (some "eye")).2 (by decide)
    exact ⟨t, h1, h2⟩

/-- C5: `getTextureFormat` returns a native format code for every abstract
format in the backend's supported subset (32-bit float RGBA and 16-bit unorm
RGBA) and fails with `UnsupportedFormatError` for every abstract format the
mapper has not enumerated; the error is surfaced to the caller as the result,
never recovered. -/
theorem C5_format_mapper_total_on_supported_subset
    (d : D3D12Device) (fmt : TextureFormat) :
    (fmt ∈ supportedFormats → ∃ code : Int, d.getTextureFormat fmt = Except.ok code) ∧
    (fmt ∉ supportedFormats →
      d.getTextureFormat fmt = Except.error Err.UnsupportedFormatError) := by
  cases fmt <;> simp [D3D12Device.getTextureFormat, supportedFormats]

/-- Witness for C5: on a concrete device, the 32-bit float RGBA format maps
to a native code while the sRGB 8-bit format, not enumerated by this
backend's mapper, fails with `UnsupportedFormatError`. -/
theorem C5_format_mapper_total_on_supported_subset_witness :
    (∃ code : Int,
      sampleDevice.getTextureFormat TextureFormat.R32G32B32A32_FLOAT = Except.ok code) ∧
    sampleDevice.getTextureFormat TextureFormat.R8G8B8A8_UNORM_SRGB =
      Except.error Err.UnsupportedFormatError := by
  constructor
  · exact (C5_format_mapper_total_on_supported_subset sampleDevice
      TextureFormat.R32G32B32A32_FLOAT).1 (by decide)
  · exact (C5_format_mapper_total_on_supported_subset sampleDevice
      TextureFormat.R8G8B8A8_UNORM_SRGB).2 (by decide)

/-- C6: `isTextureFormatSRGB` classifies exactly the three sRGB DXGI codes as
true and every other code as false without raising an error; composed with
`getTextureFormat`, the classification of each supported abstract format is a
fixed value, identical for every device instance and every repeated call
(both supported formats classify as non-sRGB). -/
theorem C6_srgb_classification (d : D3D12Device) (code : Int) :
    (d.isTextureFormatSRGB code = true ↔
      (code = DXGI_FORMAT_R8G8B8A8_UNORM_SRGB ∨
        code = DXGI_FORMAT_B8G8R8A8_UNORM_SRGB ∨
        code = DXGI_FORMAT_B8G8R8X8_UNORM_SRGB)) ∧
    (∀ d2 : D3D12Device,
      Except.map (fun c => d2.isTextureFormatSRGB c)
        (d.getTextureFormat TextureFormat.R32G32B32A32_FLOAT) = Except.ok false ∧
      Except.map (fun c => d2.isTextureFormatSRGB c)
        (d.getTextureFormat TextureFormat.R16G16B16A16_UNORM) = Except.ok false) := by
  constructor
  · simp [D3D12Device.isTextureFormatSRGB]
  · intro d2
    constructor <;>
      simp [D3D12Device.getTextureFormat, D3D12Device.isTextureFormatSRGB, Except.map,
        DXGI_FORMAT_R32G32B32A32_FLOAT, DXGI_FORMAT_R16G16B16A16_UNORM,
        DXGI_FORMAT_R8G8B8A8_UNORM_SRGB, DXGI_FORMAT_B8G8R8A8_UNORM_SRGB,
        DXGI_FORMAT_B8G8R8X8_UNORM_SRGB]

/-- C7: the claim says `dispatchShader` fails with `NoShaderBoundError` when
no shader is bound. The source's `D3D12Device` holds no shader-binding state
at all and `dispatchShader` has an empty body: on every device state,
including a freshly wrapped device on which `setShader` was never called, it
silently succeeds and never raises any error, so the claim fails on the
code. -/
theorem C7_dispatch_never_fails (d : D3D12Device) (doNotClear : Bool) :
    d.dispatchShader doNotClear = Except.ok d ∧
    (WrapD3D12Device d.device d.queue d.deviceName).dispatchShader doNotClear =
      Except.ok (WrapD3D12Device d.device d.queue d.deviceName) :=
  ⟨rfl, rfl⟩

/-- C8: `updateThreadGroups` changes only the stored dispatch extents: the
device back-reference, the compiled program handle, the API tag and the
native pointer are unchanged, the extents a subsequent dispatch consults
(`getThreadGroups`) are the new ones, and the post-update shader state is
independent of the creation-time extents. -/
theorem C8_updateThreadGroups_changes_only_extents
    (s : D3D12ComputeShader) (tg : Nat × Nat × Nat) :
    (s.updateThreadGroups tg).getThreadGroups = tg ∧
    (s.updateThreadGroups tg).device = s.device ∧
    (s.updateThreadGroups tg).computeShader = s.computeShader ∧
    (s.updateThreadGroups tg).getApi = s.getApi ∧
    (s.updateThreadGroups tg).getNativePtr = s.getNativePtr ∧
    (∀ (dev : IDevice) (prog : NativePtr) (tg0 tg1 : Nat × Nat × Nat),
      D3D12ComputeShader.updateThreadGroups ⟨dev, prog, tg0⟩ tg =
        D3D12ComputeShader.updateThreadGroups ⟨dev, prog, tg1⟩ tg) :=
  ⟨rfl, rfl, rfl, rfl, rfl, fun _ _ _ _ => rfl⟩

/-- C9: `query(reset := true)` after `start()` without a matching `stop()`
returns the defined not-ready value 0, also when an earlier start/stop
interval preceded the dangling `start()` — never stale data from a previous
interval. -/
theorem C9_query_after_start_without_stop_is_zero (t : D3D12GpuTimer) :
    (t.start).query true = 0 ∧ (((t.start).stop).start).query true = 0 :=
  ⟨rfl, rfl⟩

/-- C10: for each of the three view kinds of this backend, `getNativePtr()`
returns the null pointer regardless of the (valid) native descriptor handle
the view wraps, so the host runtime can never retrieve a usable native
handle from a view. -/
theorem C10_view_native_ptr_always_null
    (dev : IDevice) (h1 h2 h3 : D3D12_CPU_DESCRIPTOR_HANDLE) :
    (D3D12ShaderResourceView.mk dev h1).getNativePtr = NativePtr.null ∧
    (D3D12UnorderedAccessView.mk dev h2).getNativePtr = NativePtr.null ∧
    (D3D12RenderTargetView.mk dev h3).getNativePtr = NativePtr.null :=
  ⟨rfl, rfl, rfl⟩

end OpenXRToolkit
